import Mathlib

/-!
Shallow embedding of the mastra_voice_ecommerce repository: the product
catalog store (src/lib/database.ts), the vector-index adapter
(src/lib/pinecone-service.ts), the inventory update tool
(src/tools/inventory-management.ts), the product search tool
(src/tools/product-search.ts), the conversational router
(src/agents/ecommerce-agent.ts) and the bulk embedding job
(src/scripts/full-embeddings.ts).

Numbers are modelled as `Int` (TS numbers used integrally throughout the
claims), timestamps as `Nat`, and the remote embedding provider and
nearest-neighbor service as explicit function parameters. JavaScript
truthiness on optional strings (`if (x)`, `x || y`) is modelled by
treating `none` and the empty string as falsy.
-/

/-- A product row, after prisma/schema.prisma `model Product`. -/
structure Product where
  id : String
  name : String
  description : Option String
  sku : String
  price : Int
  quantity : Int
  category : Option String
  brand : Option String
  pineconeId : Option String
  hasEmbedding : Bool
  lastEmbedded : Option Nat
  isActive : Bool
  tags : List String
  searchKeywords : Option String
  updatedAt : Nat
deriving DecidableEq, Repr

/-- JS truthiness for an optional string: `none` and `""` are falsy. -/
def strTruthy : Option String → Bool
  | some s => !s.isEmpty
  | none => false

/-- `x || y` on an optional string and a fallback, as JS evaluates it. -/
def strOrElse (x : Option String) (y : String) : String :=
  match x with
  | some s => if s.isEmpty then y else s
  | none => y

/-- Input record of `DatabaseService.createProduct` (database.ts lines
12-23): the caller supplies no `isActive`, `hasEmbedding` or
`lastEmbedded`. -/
structure CreateProductData where
  name : String
  description : Option String
  sku : String
  price : Int
  quantity : Int
  category : Option String
  brand : Option String
  tags : List String
  searchKeywords : Option String
deriving DecidableEq, Repr

/-- `DatabaseService.createProduct` (database.ts lines 12-36): inserts the
row with a generated `pineconeId`; `isActive` takes its schema default
`true`, `hasEmbedding` its default `false`, whatever the quantity.
`genId` stands for the generated id string and `now` for the clock. -/
def createProduct (d : CreateProductData) (rowId genId : String) (now : Nat) : Product :=
  { id := rowId
    name := d.name
    description := d.description
    sku := d.sku
    price := d.price
    quantity := d.quantity
    category := d.category
    brand := d.brand
    pineconeId := some genId
    hasEmbedding := false
    lastEmbedded := none
    isActive := true
    tags := d.tags
    searchKeywords := d.searchKeywords
    updatedAt := now }

/-- `DatabaseService.updateInventory` (database.ts lines 207-222): writes
the new quantity and sets `isActive := quantity > 0`. -/
def updateInventory (p : Product) (quantity : Int) (now : Nat) : Product :=
  { p with
    quantity := quantity
    isActive := decide (0 < quantity)
    updatedAt := now }

/-- `DatabaseService.markProductEmbedded` (database.ts lines 171-190):
sets `hasEmbedding` and `lastEmbedded`; overwrites `pineconeId` only when
the argument is truthy. -/
def markProductEmbedded (p : Product) (pid : Option String) (now : Nat) : Product :=
  { p with
    hasEmbedding := true
    lastEmbedded := some now
    pineconeId := if strTruthy pid then pid else p.pineconeId }

/-- `DatabaseService.markProductNotEmbedded` (database.ts lines 192-205):
clears `hasEmbedding` and `lastEmbedded`, keeps `pineconeId`. -/
def markProductNotEmbedded (p : Product) : Product :=
  { p with
    hasEmbedding := false
    lastEmbedded := none }

/-! ## Vector index adapter (src/lib/pinecone-service.ts) -/

/-- An embedding vector, as returned by the embedding provider. -/
abbrev Embedding := List Int

/-- `ProductMetadata` (pinecone-service.ts lines 4-14). Optional source
fields are stored as the empty string, mirroring `product.field || ''`. -/
structure ProductMetadata where
  id : String
  name : String
  description : String
  price : Int
  quantity : Int
  category : String
  brand : String
  sku : String
  isActive : Bool
deriving DecidableEq, Repr

/-- One record of the vector index: id, vector values, and the metadata
the record was stored with (`none` when the upsert carried no metadata). -/
structure VecRecord where
  id : String
  values : Embedding
  metadata : Option ProductMetadata
deriving DecidableEq, Repr

/-- The vector index contents, as a keyed list of records. -/
abbrev VectorIndex := List VecRecord

/-- Upsert-by-id: the new record replaces any record holding the same id. -/
def upsertRecord (ix : VectorIndex) (r : VecRecord) : VectorIndex :=
  r :: ix.filter (fun x => x.id ≠ r.id)

/-- `index.deleteOne` as used by `PineconeService.deleteProduct`
(pinecone-service.ts lines 162-172): delete-by-id, a no-op when absent. -/
def deleteRecord (ix : VectorIndex) (rid : String) : VectorIndex :=
  ix.filter (fun x => x.id ≠ rid)

/-- The metadata object `PineconeService.upsertProduct` builds
(pinecone-service.ts lines 84-94). -/
def buildProductMetadata (p : Product) : ProductMetadata :=
  { id := p.id
    name := p.name
    description := p.description.getD ""
    price := p.price
    quantity := p.quantity
    category := p.category.getD ""
    brand := p.brand.getD ""
    sku := p.sku
    isActive := p.isActive }

/-- The vector id `product.pineconeId || product.id` used at upsert time. -/
def pineconeKey (p : Product) : String :=
  strOrElse p.pineconeId p.id

/-- `PineconeService.upsertProduct` (pinecone-service.ts lines 80-110):
the upserted record carries `id` and `values` only — the `metadata`
object is built at lines 84-94 but the `metadata` field of the upsert
request is commented out at line 100, so the stored record has no
metadata. -/
def upsertProduct (ix : VectorIndex) (p : Product) (embedding : Embedding) : VectorIndex :=
  upsertRecord ix { id := pineconeKey p, values := embedding, metadata := none }

/-- The metadata filter language used by the service: optional equality
and range predicates, one field per filter key that the repository ever
sends (`isActive $eq`, `quantity $gt`, `category $eq`, `brand $eq`,
`price $gte/$lte`). A `none` field means the key is absent. -/
structure QueryFilter where
  isActiveEq : Option Bool
  quantityGt : Option Int
  categoryEq : Option String
  brandEq : Option String
  priceGte : Option Int
  priceLte : Option Int
deriving DecidableEq, Repr

/-- The filter with no predicates (`{}` in the source). -/
def emptyFilter : QueryFilter :=
  { isActiveEq := none, quantityGt := none, categoryEq := none
    brandEq := none, priceGte := none, priceLte := none }

/-- Whether a present metadata object satisfies every predicate of the
filter. -/
def metaMatches (f : QueryFilter) (m : ProductMetadata) : Bool :=
  (match f.isActiveEq with | some b => m.isActive == b | none => true) &&
  (match f.quantityGt with | some n => decide (n < m.quantity) | none => true) &&
  (match f.categoryEq with | some c => m.category == c | none => true) &&
  (match f.brandEq with | some b => m.brand == b | none => true) &&
  (match f.priceGte with | some n => decide (n ≤ m.price) | none => true) &&
  (match f.priceLte with | some n => decide (m.price ≤ n) | none => true)

/-- Whether the filter carries no predicate at all. -/
def filterIsEmpty (f : QueryFilter) : Bool :=
  f.isActiveEq.isNone && f.quantityGt.isNone && f.categoryEq.isNone &&
  f.brandEq.isNone && f.priceGte.isNone && f.priceLte.isNone

/-- Vector-store filter semantics: a record without metadata matches only
a filter with no predicates; a record with metadata matches when the
metadata satisfies every predicate. -/
def recordMatches (f : QueryFilter) (r : VecRecord) : Bool :=
  match r.metadata with
  | some m => metaMatches f m
  | none => filterIsEmpty f

/-- A match returned by the index query, before score filtering. -/
abbrev ScoredRecord := Rat × VecRecord

/-- Insert into a list kept in descending score order. -/
def insertDesc (x : ScoredRecord) : List ScoredRecord → List ScoredRecord
  | [] => [x]
  | y :: ys => if y.1 ≤ x.1 then x :: y :: ys else y :: insertDesc x ys

/-- Sort scored records by descending score (the nearest-neighbor service
returns the best matches first). -/
def sortDesc : List ScoredRecord → List ScoredRecord
  | [] => []
  | x :: xs => insertDesc x (sortDesc xs)

/-- `index.query`: score every record that satisfies the filter against
the query vector and return the `topK` best. The similarity measure of
the remote service is abstracted as the `score` parameter. -/
def indexQuery (ix : VectorIndex) (score : Embedding → Embedding → Rat)
    (queryVec : Embedding) (topK : Nat) (f : QueryFilter) : List ScoredRecord :=
  (sortDesc ((ix.filter (recordMatches f)).map (fun r => (score queryVec r.values, r)))).take topK

/-- `SearchResult` (pinecone-service.ts lines 16-20); `metadata` is
optional here because the stored record may carry none (the source casts
`match.metadata as unknown as ProductMetadata`). -/
structure SearchResult where
  id : String
  score : Rat
  metadata : Option ProductMetadata
deriving DecidableEq, Repr

/-- The merged query filter of `PineconeService.searchProducts`
(pinecone-service.ts lines 131-137): `{ ...defaultFilter, ...filter }`
where the default is `isActive $eq true, quantity $gt 0` — a key present
in the caller's filter overrides the default. -/
def mergeDefaultFilter (f : QueryFilter) : QueryFilter :=
  { f with
    isActiveEq := some (f.isActiveEq.getD true)
    quantityGt := some (f.quantityGt.getD 0) }

/-- `PineconeService.searchProducts` (pinecone-service.ts lines 112-160):
merge the default filter, query the index, drop matches below `minScore`,
and return them as `SearchResult`s. -/
def searchProducts (ix : VectorIndex) (score : Embedding → Embedding → Rat)
    (queryEmbedding : Embedding) (topK : Nat) (minScore : Rat)
    (f : QueryFilter) : List SearchResult :=
  ((indexQuery ix score queryEmbedding topK (mergeDefaultFilter f)).filter
      (fun x => decide (minScore ≤ x.1))).map
    (fun x => { id := x.2.id, score := x.1, metadata := x.2.metadata })

/-! ## Inventory update tool (src/tools/inventory-management.ts) -/

/-- The `embeddingAction` values of `InventoryUpdateResult`
(inventory-management.ts lines 39-43). -/
inductive EmbeddingAction where
  | added
  | removed
  | updated
  | noneAction
deriving DecidableEq, Repr

/-- The `statusChange` field of `InventoryUpdateResult`. -/
structure StatusChange where
  wasActive : Bool
  isActive : Bool
  embeddingAction : EmbeddingAction
deriving DecidableEq, Repr

/-- `InventoryUpdateResult` (inventory-management.ts lines 34-45). -/
structure InventoryUpdateResult where
  success : Bool
  productId : String
  previousQuantity : Int
  newQuantity : Int
  statusChange : Option StatusChange
  error : Option String
deriving DecidableEq, Repr

/-- `createProductEmbeddingText` of the inventory tool
(inventory-management.ts lines 283-294): name, description, category,
brand, tags, searchKeywords — falsy (absent or empty) parts dropped —
joined with single spaces. -/
def createProductEmbeddingText (p : Product) : String :=
  String.intercalate " "
    (([p.name] ++ p.description.toList ++ p.category.toList ++ p.brand.toList
        ++ p.tags ++ p.searchKeywords.toList).filter (fun s => !s.isEmpty))

/-- The catalog-plus-index state one inventory update acts on. The tool
resolves `input.productId` to this product via `dbService.getProduct`. -/
structure SyncState where
  product : Product
  index : VectorIndex
deriving DecidableEq, Repr

/-- `executeInventoryUpdate` (inventory-management.ts lines 67-152) on a
found product. `q` is `input.quantity`, `updEmb` is
`input.updateEmbedding`, `threshold` the parsed `LOW_STOCK_THRESHOLD`,
`embed` the (deterministic) embedding provider, and `embedOk` whether the
embedding/vector-index calls of the taken branch succeed — when they
throw, the `catch` at lines 123-126 swallows the error, leaving the
branch without effect and `embeddingAction` at `'none'`. Returns the new
state and the `InventoryUpdateResult`. -/
def executeInventoryUpdate (st : SyncState) (q : Int) (updEmb : Bool)
    (threshold : Int) (embedOk : Bool) (embed : String → Embedding)
    (now : Nat) : SyncState × InventoryUpdateResult :=
  let current := st.product
  let previousQuantity := current.quantity
  let updated := updateInventory current q now
  let wasActive := current.isActive
  let isActive := updated.isActive
  let isLowStock := decide (q < threshold)
  let isOutOfStock := decide (q ≤ 0)
  let step : Product × VectorIndex × EmbeddingAction :=
    if updEmb then
      if isOutOfStock || isLowStock then
        if strTruthy current.pineconeId && current.hasEmbedding then
          if embedOk then
            (markProductNotEmbedded updated,
             deleteRecord st.index (current.pineconeId.getD ""),
             EmbeddingAction.removed)
          else (updated, st.index, EmbeddingAction.noneAction)
        else (updated, st.index, EmbeddingAction.noneAction)
      else if !wasActive && isActive then
        if embedOk then
          (markProductEmbedded updated updated.pineconeId now,
           upsertProduct st.index updated (embed (createProductEmbeddingText updated)),
           EmbeddingAction.added)
        else (updated, st.index, EmbeddingAction.noneAction)
      else if isActive && current.hasEmbedding then
        if embedOk then
          (markProductEmbedded updated updated.pineconeId now,
           upsertProduct st.index updated (embed (createProductEmbeddingText updated)),
           EmbeddingAction.updated)
        else (updated, st.index, EmbeddingAction.noneAction)
      else (updated, st.index, EmbeddingAction.noneAction)
    else (updated, st.index, EmbeddingAction.noneAction)
  (⟨step.1, step.2.1⟩,
   { success := true
     productId := current.id
     previousQuantity := previousQuantity
     newQuantity := q
     statusChange := some ⟨wasActive, isActive, step.2.2⟩
     error := none })

/-! ## Product search tool (src/tools/product-search.ts) -/

/-- `ProductSearchInput` (product-search.ts lines 10-18), minus the free
query text (only consumed by the embedding provider and intent
extractor, both abstracted). `none` models an undefined optional field. -/
structure ProductSearchInput where
  maxResults : Nat
  category : Option String
  minPrice : Option Int
  maxPrice : Option Int
  brand : Option String
  inStockOnly : Bool
deriving DecidableEq, Repr

/-- What `ollamaService.extractSearchIntent` returned for the query: the
heuristically inferred category, brand and price range. -/
structure SearchIntent where
  category : Option String
  brand : Option String
  priceRange : Option (Option Int × Option Int)
deriving DecidableEq, Repr

/-- JS `a || b` on optional strings: the first truthy operand. -/
def jsOrStr (a b : Option String) : Option String :=
  if strTruthy a then a else b

/-- JS truthiness of an optional number: present and nonzero. -/
def numTruthy : Option Int → Bool
  | some v => decide (v ≠ 0)
  | none => false

/-- The `searchFilters` object built by `executeProductSearch`
(product-search.ts lines 61-95): stock filters when `inStockOnly`;
category/brand from the explicit input or else the extracted intent
(JS `||`); `$gte` from `input.minPrice` when defined, else the intent's
truthy minimum, and symmetrically for `$lte`. -/
def buildSearchFilters (inp : ProductSearchInput) (intent : SearchIntent) : QueryFilter :=
  let priceGuard := inp.minPrice.isSome || inp.maxPrice.isSome || intent.priceRange.isSome
  let intentMin := match intent.priceRange with
    | some pr => if numTruthy pr.1 then pr.1 else none
    | none => none
  let intentMax := match intent.priceRange with
    | some pr => if numTruthy pr.2 then pr.2 else none
    | none => none
  { isActiveEq := if inp.inStockOnly then some true else none
    quantityGt := if inp.inStockOnly then some 0 else none
    categoryEq := if strTruthy (jsOrStr inp.category intent.category) then
        jsOrStr inp.category intent.category else none
    brandEq := if strTruthy (jsOrStr inp.brand intent.brand) then
        jsOrStr inp.brand intent.brand else none
    priceGte := if priceGuard then
        (if inp.minPrice.isSome then inp.minPrice else intentMin) else none
    priceLte := if priceGuard then
        (if inp.maxPrice.isSome then inp.maxPrice else intentMax) else none }

/-- The Pinecone results `executeProductSearch` obtains
(product-search.ts lines 97-102): `searchProducts` with the built
filters, `topK = input.maxResults` and `minScore = 0.6`. -/
def executeProductSearchResults (ix : VectorIndex)
    (score : Embedding → Embedding → Rat) (queryEmb : Embedding)
    (inp : ProductSearchInput) (intent : SearchIntent) : List SearchResult :=
  searchProducts ix score queryEmb inp.maxResults (3 / 5) (buildSearchFilters inp intent)

/-! ## Conversational router (src/agents/ecommerce-agent.ts) -/

/-- JS `toLowerCase()` on the ASCII messages the router handles. -/
def jsToLower (s : String) : String :=
  String.mk (s.data.map Char.toLower)

/-- Substring test: some suffix of `msg` starts with `k` (JS
`msg.includes(k)`). -/
def strContainsSub (msg k : String) : Bool :=
  msg.toList.tails.any (fun t => k.toList.isPrefixOf t)

/-- The search-intent keyword set (ecommerce-agent.ts lines 132-135). -/
def searchIntentKeywords : List String :=
  ["find", "search", "looking for", "need", "want", "show me", "do you have",
   "available", "sell", "products", "items", "buy", "purchase", "browse"]

/-- The inventory-intent keyword set (ecommerce-agent.ts lines 142-145). -/
def inventoryIntentKeywords : List String :=
  ["in stock", "available", "inventory", "quantity", "how many",
   "stock level", "out of stock", "sold out"]

/-- `EcommerceAgent.requiresProductSearch` (ecommerce-agent.ts lines
131-139): some search keyword occurs in the lowercased message. -/
def requiresProductSearch (message : String) : Bool :=
  searchIntentKeywords.any (fun k => strContainsSub (jsToLower message) k)

/-- `EcommerceAgent.requiresInventoryCheck` (ecommerce-agent.ts lines
141-149): some inventory keyword occurs in the lowercased message. -/
def requiresInventoryCheck (message : String) : Bool :=
  inventoryIntentKeywords.any (fun k => strContainsSub (jsToLower message) k)

/-- Where `processMessage` dispatches a message. -/
inductive AgentDispatch where
  | productSearch
  | inventoryCheck
  | generalChat
deriving DecidableEq, Repr

/-- The dispatch decision of `EcommerceAgent.processMessage`
(ecommerce-agent.ts lines 102-113): product search first, then inventory
check, else the plain chat completion. -/
def processMessageDispatch (message : String) : AgentDispatch :=
  if requiresProductSearch message then AgentDispatch.productSearch
  else if requiresInventoryCheck message then AgentDispatch.inventoryCheck
  else AgentDispatch.generalChat

/-! ## Bulk embedding job (src/scripts/full-embeddings.ts) -/

/-- `EmbeddingProgress` (full-embeddings.ts lines 13-20), without the
wall-clock start time. -/
structure EmbeddingProgress where
  total : Nat
  processed : Nat
  successful : Nat
  failed : Nat
  skipped : Nat
deriving DecidableEq, Repr

/-- `createProductEmbeddingText` of the bulk job (full-embeddings.ts
lines 22-36): name, description, category, brand, tags, searchKeywords,
`SKU: …` and `Price: $…`, keeping parts that are truthy and nonblank,
joined with spaces and trimmed. -/
def fullEmbeddingText (p : Product) : String :=
  (String.intercalate " "
    (([p.name, p.description.getD "", p.category.getD "", p.brand.getD ""]
        ++ p.tags
        ++ [p.searchKeywords.getD "", "SKU: " ++ p.sku, "Price: $" ++ toString p.price]).filter
      (fun s => !s.isEmpty && !s.trim.isEmpty))).trim

/-- What one `processProductEmbedding` call did to the counters. -/
inductive ItemOutcome where
  | succeededItem
  | failedItem
  | skippedItem
deriving DecidableEq, Repr

/-- `processProductEmbedding` (full-embeddings.ts lines 38-88) as the
counter outcome for one product: skip when inactive/out-of-stock or the
embedding text is too short; fail when the embedding call throws
(`embedRes = .error`), the embedding comes back empty, or a later
store/upsert call throws (`ioOk = false`, all inside the same `try`);
succeed otherwise. Exactly one branch is reached per call. -/
def processProductEmbedding (p : Product) (embedRes : Except String Embedding)
    (ioOk : Bool) : ItemOutcome :=
  if !p.isActive || decide (p.quantity ≤ 0) then ItemOutcome.skippedItem
  else
    let text := fullEmbeddingText p
    if text.isEmpty || decide (text.trim.length < 10) then ItemOutcome.skippedItem
    else
      match embedRes with
      | Except.error _ => ItemOutcome.failedItem
      | Except.ok v =>
          if v.isEmpty then ItemOutcome.failedItem
          else if ioOk then ItemOutcome.succeededItem
          else ItemOutcome.failedItem

/-- Increment the one counter the outcome names. -/
def applyOutcome (prog : EmbeddingProgress) : ItemOutcome → EmbeddingProgress
  | ItemOutcome.succeededItem => { prog with successful := prog.successful + 1 }
  | ItemOutcome.failedItem => { prog with failed := prog.failed + 1 }
  | ItemOutcome.skippedItem => { prog with skipped := prog.skipped + 1 }

/-- One fetched product together with its embedding-provider response
and the success of its store/upsert calls. -/
abbrev BulkItem := Product × Except String Embedding × Bool

/-- The per-item body of the batch loop (full-embeddings.ts lines
162-175): run `processProductEmbedding`, then `progress.processed++`. -/
def bulkStep (prog : EmbeddingProgress) (item : BulkItem) : EmbeddingProgress :=
  let prog1 := applyOutcome prog (processProductEmbedding item.1 item.2.1 item.2.2)
  { prog1 with processed := prog1.processed + 1 }

/-- The batch loop of `generateFullEmbeddings` (full-embeddings.ts lines
154-194): slices of `batchSize = 5`, each processed sequentially. -/
def bulkBatchLoop (items : List BulkItem) (prog : EmbeddingProgress) : EmbeddingProgress :=
  if items.isEmpty then prog
  else bulkBatchLoop (items.drop 5) ((items.take 5).foldl bulkStep prog)
termination_by items.length
decreasing_by
  rename_i h
  have h2 : items.length ≠ 0 := by
    intro hlen
    exact h (by simpa [List.isEmpty_iff_length_eq_zero] using hlen)
  simp only [List.length_drop]
  omega

/-- The final counters of one completed `generateFullEmbeddings` run
(full-embeddings.ts lines 90-257): `total` is the number of fetched
products, the loop processes every item. -/
def generateFullEmbeddingsProgress (items : List BulkItem) : EmbeddingProgress :=
  bulkBatchLoop items
    { total := items.length, processed := 0, successful := 0, failed := 0, skipped := 0 }

/-! ## Concrete sample data used by witnesses and counterexamples -/

/-- A well-formed in-stock product used as a concrete witness input. -/
def sampleProduct : Product :=
  { id := "p1"
    name := "Trail Shoes"
    description := some "Lightweight trail running shoes"
    sku := "SKU1"
    price := 80
    quantity := 5
    category := some "shoes"
    brand := some "Acme"
    pineconeId := some "pc_1"
    hasEmbedding := true
    lastEmbedded := some 0
    isActive := true
    tags := ["running"]
    searchKeywords := some "trail"
    updatedAt := 0 }

/-- Creation payload with quantity zero, as a caller may submit it. -/
def sampleCreateData : CreateProductData :=
  { name := "Widget"
    description := none
    sku := "SKU2"
    price := 10
    quantity := 0
    category := none
    brand := none
    tags := []
    searchKeywords := none }

/-! ## Claim theorems -/

/-- Claim C3: immediately after `updateInventory(id, q)` the stored
product record satisfies `isActive == (q > 0)` (and holds the new
quantity). -/
theorem updateInventory_isActive_iff (p : Product) (q : Int) (now : Nat) :
    ((updateInventory p q now).isActive = true ↔ 0 < q) ∧
    (updateInventory p q now).quantity = q := by
  simp [updateInventory]

/-- Claim C10: `createProduct` stores the schema default `isActive =
true` regardless of the supplied quantity, so a product created with
quantity 0 violates `isActive == (quantity > 0)` until its first
`updateInventory`. -/
theorem createProduct_isActive_default (d : CreateProductData)
    (rowId genId : String) (now : Nat) :
    (createProduct d rowId genId now).isActive = true ∧
    (d.quantity = 0 →
      ¬ ((createProduct d rowId genId now).isActive = true ↔
          0 < (createProduct d rowId genId now).quantity)) := by
  refine ⟨rfl, fun h0 hiff => absurd (hiff.mp rfl) ?_⟩
  simp [createProduct, h0]

/-- Witness for C10 at a concrete zero-quantity creation payload. -/
theorem createProduct_isActive_default_witness :
    sampleCreateData.quantity = 0 ∧
    ¬ ((createProduct sampleCreateData "row1" "pc9" 0).isActive = true ↔
        0 < (createProduct sampleCreateData "row1" "pc9" 0).quantity) :=
  ⟨rfl, (createProduct_isActive_default sampleCreateData "row1" "pc9" 0).2 rfl⟩

/-- Claim C5: when the catalog write commits but the embedding provider
or vector index throws during the add/update/remove step (`embedOk =
false`), `executeInventoryUpdate` still returns `success = true` with
the committed previous and new quantities, the stored quantity stays
committed, and the vector index is untouched. -/
theorem executeInventoryUpdate_embedError_commits (st : SyncState) (q : Int)
    (threshold : Int) (embed : String → Embedding) (now : Nat) :
    (executeInventoryUpdate st q true threshold false embed now).2.success = true ∧
    (executeInventoryUpdate st q true threshold false embed now).2.previousQuantity
      = st.product.quantity ∧
    (executeInventoryUpdate st q true threshold false embed now).2.newQuantity = q ∧
    (executeInventoryUpdate st q true threshold false embed now).1.product.quantity = q ∧
    (executeInventoryUpdate st q true threshold false embed now).1.index = st.index := by
  unfold executeInventoryUpdate updateInventory
  refine ⟨rfl, rfl, rfl, ?_, ?_⟩ <;>
    (split_ifs <;> simp_all [apply_ite Prod.snd, apply_ite Prod.fst, apply_ite Product.quantity])

/-- The embedding action an `InventoryUpdateResult` reports. -/
def resultAction (r : InventoryUpdateResult) : Option EmbeddingAction :=
  r.statusChange.map (fun sc => sc.embeddingAction)

/-- Claim C1: with `lowStockThreshold = 5`, previous quantity 0 and new
quantity 3, the embedding action is `removed` or `none` and never
`added` — the low-stock removal branch is tested before the
became-active branch — and no vector is upserted: the index is unchanged
or only loses the product's entry. -/
theorem executeInventoryUpdate_lowStock_noAdd (st : SyncState)
    (updEmb embedOk : Bool) (embed : String → Embedding) (now : Nat)
    (_hprev : st.product.quantity = 0) :
    resultAction (executeInventoryUpdate st 3 updEmb 5 embedOk embed now).2 ≠
      some EmbeddingAction.added ∧
    (resultAction (executeInventoryUpdate st 3 updEmb 5 embedOk embed now).2 =
        some EmbeddingAction.removed ∨
      resultAction (executeInventoryUpdate st 3 updEmb 5 embedOk embed now).2 =
        some EmbeddingAction.noneAction) ∧
    ((executeInventoryUpdate st 3 updEmb 5 embedOk embed now).1.index = st.index ∨
      (executeInventoryUpdate st 3 updEmb 5 embedOk embed now).1.index =
        deleteRecord st.index (st.product.pineconeId.getD "")) := by
  unfold executeInventoryUpdate updateInventory resultAction
  norm_num
  split_ifs <;>
    simp_all [apply_ite Prod.snd, apply_ite Prod.fst, apply_ite SyncState.index]

/-- A concrete zero-stock state for the C1 witness. -/
def zeroStockState : SyncState :=
  ⟨{ sampleProduct with quantity := 0 },
   [{ id := "pc_1", values := [1], metadata := none }]⟩

/-- Witness for C1 at a concrete zero-stock product. -/
theorem executeInventoryUpdate_lowStock_noAdd_witness :
    zeroStockState.product.quantity = 0 ∧
    (resultAction (executeInventoryUpdate zeroStockState 3 true 5 true (fun _ => [1]) 0).2 ≠
        some EmbeddingAction.added ∧
      (resultAction (executeInventoryUpdate zeroStockState 3 true 5 true (fun _ => [1]) 0).2 =
          some EmbeddingAction.removed ∨
        resultAction (executeInventoryUpdate zeroStockState 3 true 5 true (fun _ => [1]) 0).2 =
          some EmbeddingAction.noneAction) ∧
      ((executeInventoryUpdate zeroStockState 3 true 5 true (fun _ => [1]) 0).1.index =
          zeroStockState.index ∨
        (executeInventoryUpdate zeroStockState 3 true 5 true (fun _ => [1]) 0).1.index =
          deleteRecord zeroStockState.index (zeroStockState.product.pineconeId.getD ""))) :=
  ⟨rfl, executeInventoryUpdate_lowStock_noAdd zeroStockState true true (fun _ => [1]) 0 rfl⟩

/-- The drifted state C4 fails on: a product created with quantity 0
keeps the schema default `isActive = true`, so its stored flag does not
equal `previousQuantity > 0`. -/
def driftProduct : Product :=
  { sampleProduct with
    quantity := 0
    isActive := true
    hasEmbedding := false
    pineconeId := some "pc_7" }

/-- The catalog-plus-index state holding `driftProduct` and an empty
index. -/
def driftState : SyncState := ⟨driftProduct, []⟩

/-- Counterexample to C4: for this product with previous quantity 0,
new quantity 10 and threshold 5, the code reports action `none`, not
`added` — `wasActive` is read from the stored `isActive` flag, which is
`true` here, not computed from `previousQuantity > 0`. -/
theorem executeInventoryUpdate_restock_not_added :
    driftState.product.quantity = 0 ∧
    resultAction (executeInventoryUpdate driftState 10 true 5 true (fun _ => [1]) 0).2 =
      some EmbeddingAction.noneAction ∧
    resultAction (executeInventoryUpdate driftState 10 true 5 true (fun _ => [1]) 0).2 ≠
      some EmbeddingAction.added := by
  refine ⟨by rfl, by rfl, ?_⟩
  intro h
  simp [driftState, driftProduct, sampleProduct, executeInventoryUpdate, updateInventory,
    resultAction, strTruthy] at h

/-- Claim C4 as amended: when the previous quantity is 0 AND the stored
`isActive` flag is false (`wasActive` is read from that flag, not
computed from the previous quantity), the update to quantity 10 with
threshold 5 performs ADD: it reports `added` with `wasActive = false`,
`isActive = true`, marks the product embedded, and upserts the embedding
of the updated product's text. -/
theorem executeInventoryUpdate_restock_added (st : SyncState)
    (embed : String → Embedding) (now : Nat)
    (_hprev : st.product.quantity = 0) (hflag : st.product.isActive = false) :
    resultAction (executeInventoryUpdate st 10 true 5 true embed now).2 =
      some EmbeddingAction.added ∧
    (executeInventoryUpdate st 10 true 5 true embed now).2.statusChange =
      some ⟨false, true, EmbeddingAction.added⟩ ∧
    (executeInventoryUpdate st 10 true 5 true embed now).1.product.hasEmbedding = true ∧
    (executeInventoryUpdate st 10 true 5 true embed now).1.index =
      upsertProduct st.index (updateInventory st.product 10 now)
        (embed (createProductEmbeddingText (updateInventory st.product 10 now))) := by
  unfold executeInventoryUpdate resultAction
  simp [hflag, updateInventory, markProductEmbedded]

/-- A zero-quantity product whose stored flag is false, for the C4
witness. -/
def inactiveZeroState : SyncState :=
  ⟨{ sampleProduct with quantity := 0, isActive := false, hasEmbedding := false }, []⟩

/-- Witness for the amended C4 at a concrete inactive zero-stock
product. -/
theorem executeInventoryUpdate_restock_added_witness :
    inactiveZeroState.product.quantity = 0 ∧
    inactiveZeroState.product.isActive = false ∧
    (resultAction (executeInventoryUpdate inactiveZeroState 10 true 5 true (fun _ => [1]) 0).2 =
        some EmbeddingAction.added ∧
      (executeInventoryUpdate inactiveZeroState 10 true 5 true (fun _ => [1]) 0).2.statusChange =
        some ⟨false, true, EmbeddingAction.added⟩ ∧
      (executeInventoryUpdate inactiveZeroState 10 true 5 true
          (fun _ => [1]) 0).1.product.hasEmbedding = true ∧
      (executeInventoryUpdate inactiveZeroState 10 true 5 true (fun _ => [1]) 0).1.index =
        upsertProduct inactiveZeroState.index
          (updateInventory inactiveZeroState.product 10 0)
          ((fun _ => [1])
            (createProductEmbeddingText (updateInventory inactiveZeroState.product 10 0)))) :=
  ⟨rfl, rfl,
    executeInventoryUpdate_restock_added inactiveZeroState (fun _ => [1]) 0 rfl rfl⟩

/-- Counterexample to C9: the message consisting of the single word
available matches both keyword sets (a tie), yet the router dispatches
to the product-search tool, not to the plain chat completion. -/
theorem processMessage_tie_dispatches_search :
    requiresProductSearch "available" = true ∧
    requiresInventoryCheck "available" = true ∧
    processMessageDispatch "available" = AgentDispatch.productSearch := by
  refine ⟨by decide, by decide, by decide⟩

/-- Claim C9 as amended: a message matching the search-intent set always
dispatches to the product-search tool, even when it also matches the
inventory set — search wins ties; the plain chat completion is reached
exactly when the message matches neither set; the inventory tool is
reached exactly when the message matches only the inventory set. -/
theorem processMessageDispatch_characterization (m : String) :
    (processMessageDispatch m = AgentDispatch.productSearch ↔
      requiresProductSearch m = true) ∧
    (processMessageDispatch m = AgentDispatch.generalChat ↔
      (requiresProductSearch m = false ∧ requiresInventoryCheck m = false)) ∧
    (processMessageDispatch m = AgentDispatch.inventoryCheck ↔
      (requiresProductSearch m = false ∧ requiresInventoryCheck m = true)) := by
  unfold processMessageDispatch
  cases hps : requiresProductSearch m <;> cases hic : requiresInventoryCheck m <;> simp

/-- Claim C2 (code bug): the round-trip fails. `upsertProduct` stores
the vector of `sampleProduct` without any metadata (the metadata object
is built but commented out of the upsert request), so a `searchProducts`
query with the very same vector and a filter matching the product's
metadata (its category, plus the default `isActive = true`,
`quantity > 0`) returns no result at all, whatever similarity score the
index assigns — even though the metadata the code built would satisfy
that filter. -/
theorem upsertProduct_dropsMetadata_roundtrip_fails :
    upsertProduct [] sampleProduct [1, 2, 3] =
      [{ id := "pc_1", values := [1, 2, 3], metadata := none }] ∧
    metaMatches (mergeDefaultFilter { emptyFilter with categoryEq := some "shoes" })
      (buildProductMetadata sampleProduct) = true ∧
    (∀ score : Embedding → Embedding → Rat,
      searchProducts (upsertProduct [] sampleProduct [1, 2, 3]) score [1, 2, 3] 10 (7 / 10)
        { emptyFilter with categoryEq := some "shoes" } = []) := by
  refine ⟨by rfl, by rfl, fun score => by rfl⟩

/-- Each loop iteration adds one to `processed` and one to exactly one of
`successful`, `failed`, `skipped`, leaving `total` alone. -/
theorem bulkStep_counts (prog : EmbeddingProgress) (item : BulkItem) :
    (bulkStep prog item).processed = prog.processed + 1 ∧
    (bulkStep prog item).successful + (bulkStep prog item).failed +
        (bulkStep prog item).skipped =
      prog.successful + prog.failed + prog.skipped + 1 ∧
    (bulkStep prog item).total = prog.total := by
  unfold bulkStep applyOutcome
  cases processProductEmbedding item.1 item.2.1 item.2.2 <;> simp <;> omega

/-- Folding the loop body over a list of items advances the counters by
the list length. -/
theorem foldl_bulkStep_counts (items : List BulkItem) (prog : EmbeddingProgress) :
    (items.foldl bulkStep prog).processed = prog.processed + items.length ∧
    (items.foldl bulkStep prog).successful + (items.foldl bulkStep prog).failed +
        (items.foldl bulkStep prog).skipped =
      prog.successful + prog.failed + prog.skipped + items.length ∧
    (items.foldl bulkStep prog).total = prog.total := by
  induction items generalizing prog with
  | nil => simp
  | cons x xs ih =>
      obtain ⟨a1, a2, a3⟩ := bulkStep_counts prog x
      obtain ⟨b1, b2, b3⟩ := ih (bulkStep prog x)
      simp only [List.foldl_cons, List.length_cons]
      exact ⟨by omega, by omega, by omega⟩

/-- The batched loop processes exactly the items a flat fold would. -/
theorem bulkBatchLoop_eq_foldl (items : List BulkItem) (prog : EmbeddingProgress) :
    bulkBatchLoop items prog = items.foldl bulkStep prog := by
  induction items, prog using bulkBatchLoop.induct with
  | case1 prog h =>
      rw [bulkBatchLoop]
      simp_all [List.isEmpty_iff]
  | case2 items prog h ih =>
      rw [bulkBatchLoop]
      simp only [h, if_neg, ih]
      rw [← List.foldl_append, List.take_append_drop]
      simp [h]

/-- Claim C6: at completion of a bulk embedding run the counters satisfy
`processed = successful + failed + skipped` and `processed = total`. -/
theorem generateFullEmbeddings_counters (items : List BulkItem) :
    (generateFullEmbeddingsProgress items).processed =
      (generateFullEmbeddingsProgress items).successful +
        (generateFullEmbeddingsProgress items).failed +
        (generateFullEmbeddingsProgress items).skipped ∧
    (generateFullEmbeddingsProgress items).processed =
      (generateFullEmbeddingsProgress items).total := by
  unfold generateFullEmbeddingsProgress
  rw [bulkBatchLoop_eq_foldl]
  obtain ⟨a1, a2, a3⟩ :=
    foldl_bulkStep_counts items ⟨items.length, 0, 0, 0, 0⟩
  simp only at a1 a2 a3
  exact ⟨by omega, by omega⟩

/-- Membership through ordered insertion. -/
theorem mem_insertDesc {a x : ScoredRecord} {l : List ScoredRecord} :
    a ∈ insertDesc x l ↔ a = x ∨ a ∈ l := by
  induction l with
  | nil => simp [insertDesc]
  | cons y ys ih =>
      unfold insertDesc
      split
      · simp [List.mem_cons]
      · simp [List.mem_cons, ih]
        tauto

/-- Sorting returns a sublist of the same elements. -/
theorem mem_sortDesc {a : ScoredRecord} {l : List ScoredRecord} :
    a ∈ sortDesc l → a ∈ l := by
  induction l with
  | nil => simp [sortDesc]
  | cons x xs ih =>
      intro h
      rcases mem_insertDesc.mp (by simpa [sortDesc] using h) with h1 | h2
      · subst h1
        exact List.mem_cons_self _ _
      · exact List.mem_cons_of_mem x (ih h2)

/-- A metadata object passing a filter that requires `quantity $gt 0` and
`isActive $eq true` has positive quantity and is active. -/
theorem metaMatches_stock {f : QueryFilter} {m : ProductMetadata}
    (hq : f.quantityGt = some 0) (ha : f.isActiveEq = some true)
    (h : metaMatches f m = true) : 0 < m.quantity ∧ m.isActive = true := by
  unfold metaMatches at h
  rw [hq, ha] at h
  simp only [Bool.and_eq_true, beq_iff_eq, decide_eq_true_eq] at h
  tauto

/-- A record without metadata never passes a filter that requires
`isActive $eq true`. -/
theorem recordMatches_no_metadata {f : QueryFilter} {r : VecRecord}
    (ha : f.isActiveEq = some true) (hmeta : r.metadata = none) :
    recordMatches f r = false := by
  simp [recordMatches, hmeta, filterIsEmpty, ha]

/-- Claim C8: with `inStockOnly = true`, for any category/brand/price
filters, the built query filter includes `quantity $gt 0` and
`isActive $eq true`, and every result of the search carries metadata
with positive quantity and `isActive = true` — never a product with
`quantity <= 0`. -/
theorem executeProductSearch_inStockOnly (ix : VectorIndex)
    (score : Embedding → Embedding → Rat) (qemb : Embedding)
    (inp : ProductSearchInput) (intent : SearchIntent) (r : SearchResult)
    (hstock : inp.inStockOnly = true)
    (hr : r ∈ executeProductSearchResults ix score qemb inp intent) :
    (buildSearchFilters inp intent).quantityGt = some 0 ∧
    (buildSearchFilters inp intent).isActiveEq = some true ∧
    ∃ m, r.metadata = some m ∧ 0 < m.quantity ∧ m.isActive = true := by
  have hq0 : (mergeDefaultFilter (buildSearchFilters inp intent)).quantityGt = some 0 := by
    simp [mergeDefaultFilter, buildSearchFilters, hstock]
  have ha0 : (mergeDefaultFilter (buildSearchFilters inp intent)).isActiveEq = some true := by
    simp [mergeDefaultFilter, buildSearchFilters, hstock]
  refine ⟨by simp [buildSearchFilters, hstock], by simp [buildSearchFilters, hstock], ?_⟩
  unfold executeProductSearchResults searchProducts at hr
  rcases List.mem_map.mp hr with ⟨x, hx, hxr⟩
  rcases List.mem_filter.mp hx with ⟨hxq, hsc⟩
  unfold indexQuery at hxq
  have hx2 := mem_sortDesc (List.take_subset _ _ hxq)
  rcases List.mem_map.mp hx2 with ⟨rec, hrec, hxeq⟩
  have hmatch := (List.mem_filter.mp hrec).2
  cases hmeta : rec.metadata with
  | none =>
      rw [recordMatches_no_metadata ha0 hmeta] at hmatch
      exact absurd hmatch (by simp)
  | some m =>
      have hmm : metaMatches (mergeDefaultFilter (buildSearchFilters inp intent)) m = true := by
        unfold recordMatches at hmatch
        rw [hmeta] at hmatch
        exact hmatch
      obtain ⟨hql, hal⟩ := metaMatches_stock hq0 ha0 hmm
      refine ⟨m, ?_, hql, hal⟩
      have hrm : r.metadata = x.2.metadata := by rw [← hxr]
      rw [hrm, ← hxeq, hmeta]

/-- Concrete metadata for the C8 witness. -/
def witMetadata : ProductMetadata :=
  { id := "p1", name := "Trail Shoes", description := "", price := 80,
    quantity := 3, category := "shoes", brand := "", sku := "SKU1",
    isActive := true }

/-- A one-record index carrying that metadata. -/
def witIndex : VectorIndex :=
  [{ id := "pc_1", values := [1], metadata := some witMetadata }]

/-- A search input requesting in-stock products only. -/
def witInput : ProductSearchInput :=
  { maxResults := 10, category := none, minPrice := none, maxPrice := none,
    brand := none, inStockOnly := true }

/-- An extracted intent with nothing inferred. -/
def witIntent : SearchIntent :=
  { category := none, brand := none, priceRange := none }

/-- The result the search returns on `witIndex`. -/
def witResult : SearchResult :=
  { id := "pc_1", score := 1, metadata := some witMetadata }

/-- Witness for C8 at a concrete index, input and result. -/
theorem executeProductSearch_inStockOnly_witness :
    witInput.inStockOnly = true ∧
    witResult ∈ executeProductSearchResults witIndex (fun _ _ => 1) [1] witInput witIntent ∧
    ((buildSearchFilters witInput witIntent).quantityGt = some 0 ∧
      (buildSearchFilters witInput witIntent).isActiveEq = some true ∧
      ∃ m, witResult.metadata = some m ∧ 0 < m.quantity ∧ m.isActive = true) :=
  ⟨rfl, by
    norm_num [executeProductSearchResults, searchProducts, indexQuery,
      mergeDefaultFilter, buildSearchFilters, witInput, witIntent, witIndex,
      witMetadata, witResult, recordMatches, metaMatches, filterIsEmpty,
      sortDesc, insertDesc, jsOrStr, strTruthy, numTruthy],
    executeProductSearch_inStockOnly witIndex (fun _ _ => 1) [1] witInput witIntent
      witResult rfl (by
        norm_num [executeProductSearchResults, searchProducts, indexQuery,
          mergeDefaultFilter, buildSearchFilters, witInput, witIntent, witIndex,
          witMetadata, witResult, recordMatches, metaMatches, filterIsEmpty,
          sortDesc, insertDesc, jsOrStr, strTruthy, numTruthy])⟩

/-- Upserting the same record twice equals upserting it once. -/
theorem upsertRecord_idem (ix : VectorIndex) (r : VecRecord) :
    upsertRecord (upsertRecord ix r) r = upsertRecord ix r := by
  unfold upsertRecord
  simp [List.filter_cons, List.filter_filter]

/-- Deleting the same id twice equals deleting it once. -/
theorem deleteRecord_idem (ix : VectorIndex) (rid : String) :
    deleteRecord (deleteRecord ix rid) rid = deleteRecord ix rid := by
  unfold deleteRecord
  simp [List.filter_filter]

/-- Claim C7: reconciliation is idempotent. Running
`executeInventoryUpdate` twice in a row toward the same quantity `q`
(the second call observing the state the first produced) leaves the
same vector-index contents and the same `hasEmbedding`/`pineconeId`
flags as running it once. -/
theorem executeInventoryUpdate_idempotent (st : SyncState) (q threshold : Int)
    (embed : String → Embedding) (now1 now2 : Nat) :
    (executeInventoryUpdate (executeInventoryUpdate st q true threshold true embed now1).1
        q true threshold true embed now2).1.index =
      (executeInventoryUpdate st q true threshold true embed now1).1.index ∧
    (executeInventoryUpdate (executeInventoryUpdate st q true threshold true embed now1).1
        q true threshold true embed now2).1.product.hasEmbedding =
      (executeInventoryUpdate st q true threshold true embed now1).1.product.hasEmbedding ∧
    (executeInventoryUpdate (executeInventoryUpdate st q true threshold true embed now1).1
        q true threshold true embed now2).1.product.pineconeId =
      (executeInventoryUpdate st q true threshold true embed now1).1.product.pineconeId := by
  by_cases hlow : q ≤ 0 ∨ q < threshold
  · cases hpc : strTruthy st.product.pineconeId <;> cases hhe : st.product.hasEmbedding <;>
      simp [executeInventoryUpdate, updateInventory, markProductEmbedded,
        markProductNotEmbedded, hlow, hpc, hhe]
  · have ha : 0 < q := by
      push_neg at hlow
      omega
    cases hwa : st.product.isActive <;> cases hhe : st.product.hasEmbedding <;>
      simp [executeInventoryUpdate, updateInventory, markProductEmbedded,
        upsertProduct, pineconeKey, createProductEmbeddingText, strOrElse,
        hlow, hwa, hhe, ha, upsertRecord_idem]
